import Mathlib

/-!
Shallow embedding of the admission-control core of `src/gateway.py`
(agent-pay-gateway): payment-header parsing, per-client fixed-window rate
limiting, the `require_payment` admission pipeline, the paid-request
handlers with their ledger writes and client-profile updates, and the
client listing.

Conventions of the embedding:
* Python `float` amounts and timestamps become `ℚ` (the claims only use
  comparisons and sums, which agree with the exact values).
* Python dicts become insertion-ordered association lists
  (`List (String × α)`) with lookup `dictGet` and in-place-overwrite /
  append-at-end update `upsert`, matching dict semantics.
* The module-level mutable dicts (`requests_db`, `api_keys_db`,
  `rate_limits`, `CLIENT_RATE_LIMITS`) become fields of `GatewayState`,
  passed and returned explicitly.
* `time.time()` / `datetime.now()` become an explicit `now : ℚ` argument;
  the random `generate_request_id` becomes an explicit `rid : String`
  argument.
* An uncaught Python exception inside a handler (Flask turns it into an
  HTTP 500) is modelled by the explicit outcome `Outcome.exn`.
-/

/-- Python whitespace characters stripped by `str.strip()` (ASCII subset,
which is all that occurs in payment headers). -/
def isPySpace (c : Char) : Bool :=
  c = ' ' || c = '\t' || c = '\n' || c = '\r' || c = '\x0b' || c = '\x0c'

/-- Python `str.strip()` on a list of characters: drop whitespace at both ends. -/
def stripChars (l : List Char) : List Char :=
  ((l.dropWhile isPySpace).reverse.dropWhile isPySpace).reverse

/-- Python `str.strip()`. -/
def pyStrip (s : String) : String := ⟨stripChars s.toList⟩

/-- Python `str.split(sep)` for a one-character separator: split at every
occurrence; the empty string yields `[""]`. -/
def splitCharsOn (sep : Char) : List Char → List (List Char)
  | [] => [[]]
  | c :: cs =>
    let r := splitCharsOn sep cs
    if c = sep then [] :: r
    else
      match r with
      | [] => [[c]]
      | x :: xs => (c :: x) :: xs

/-- Python `str.split(sep)` for a one-character separator. -/
def pySplit (sep : Char) (s : String) : List String :=
  (splitCharsOn sep s.toList).map fun l => ⟨l⟩

/-- Python `sep in s` for a one-character needle. -/
def pyContains (sep : Char) (s : String) : Bool := s.toList.contains sep

/-- Python `str.split(sep, 1)` when `sep` is known to occur: the parts before and
after the first occurrence. -/
def splitFirst (sep : Char) (s : String) : String × String :=
  let before := s.toList.takeWhile (· ≠ sep)
  let rest := s.toList.dropWhile (· ≠ sep)
  (⟨before⟩, ⟨rest.drop 1⟩)

/-- All characters are decimal digits and there is at least one: the
numeric value. -/
def parseDigits : List Char → Option ℕ
  | [] => none
  | l =>
    if l.all (·.isDigit) then
      some (l.foldl (fun acc c => acc * 10 + (c.toNat - '0'.toNat)) 0)
    else none

/-- Python `float(s)` on plain decimal literals: optional surrounding
whitespace, optional sign, digits with an optional single decimal point,
at least one digit overall.  Exotic accepted forms of CPython `float`
(exponents, `inf`, `nan`, underscores) do not occur in payment headers and
are not modelled; malformed text yields `none` (the `ValueError` case). -/
def pyFloat (s : String) : Option ℚ :=
  let l := stripChars s.toList
  let (sign, l) : ℚ × List Char :=
    match l with
    | '+' :: r => (1, r)
    | '-' :: r => (-1, r)
    | _ => (1, l)
  match splitCharsOn '.' l with
  | [intPart] =>
    match parseDigits intPart with
    | some n => some (sign * n)
    | none => none
  | [intPart, fracPart] =>
    if intPart = [] ∧ fracPart = [] then none
    else
      match parseDigits (if intPart = [] then ['0'] else intPart),
            parseDigits (if fracPart = [] then ['0'] else fracPart) with
      | some n, some f => some (sign * (n + (f : ℚ) / (10 : ℚ) ^ fracPart.length))
      | _, _ => none
  | _ => none

/-- Dict lookup `d.get(k)`: value of the first (hence only) binding. -/
def dictGet (k : String) : List (String × α) → Option α
  | [] => none
  | (k', v) :: t => if k' = k then some v else dictGet k t

/-- Dict assignment `d[k] = v`: overwrite in place if the key is present,
else append at the end (Python dict insertion order). -/
def upsert (k : String) (v : α) : List (String × α) → List (String × α)
  | [] => [(k, v)]
  | (k', v') :: t => if k' = k then (k, v) :: t else (k', v') :: upsert k v t


-- === Configuration (src/gateway.py lines 36-58) ===

/-- Constant `PRICE_PER_REQUEST`: default price in USDC; environment default "0.01". -/
def PRICE_PER_REQUEST : ℚ := 1 / 100

/-- The `ENDPOINT_PRICING` table. -/
def ENDPOINT_PRICING : List (String × ℚ) :=
  [("/api/v1/predict", 1 / 100),
   ("/api/v1/analyze", 5 / 100),
   ("/api/v1/search", 1 / 1000),
   ("/api/v1/embed", 2 / 1000),
   ("/api/v1/complete", 1 / 100)]

/-- Constant `DEFAULT_RATE_LIMIT` (requests per minute). -/
def DEFAULT_RATE_LIMIT : Int := 60

-- === Data model (src/gateway.py lines 61-85) ===

/-- The `PaidRequest` dataclass: a ledger entry. -/
structure PaidRequest where
  id : String
  client_address : String
  endpoint : String
  max_amount : ℚ
  amount_paid : ℚ
  status : String
  created_at : ℚ
  completed_at : Option ℚ := none
  response_data : Option String := none
  ip_address : String := ""
  user_agent : String := ""
deriving DecidableEq

/-- The `Client` dataclass: the per-address profile. -/
structure Client where
  address : String
  total_spent : ℚ := 0
  total_requests : ℕ := 0
  created_at : ℚ
  is_whitelisted : Bool := false
  rate_limit : Int := DEFAULT_RATE_LIMIT
deriving DecidableEq

/-- One value of the `rate_limits` defaultdict:
`{"requests": ..., "reset_at": ...}`. -/
structure RateLimitData where
  requests : ℕ
  reset_at : ℚ
deriving DecidableEq

/-- The module-level mutable dicts of `gateway.py`.  A value of
`CLIENT_RATE_LIMITS` is the dict `{"limit": n}`; it is modelled by the
integer `n` directly since `"limit"` is its only key. -/
structure GatewayState where
  requests_db : List (String × PaidRequest)
  api_keys_db : List (String × Client)
  rate_limits : List (String × RateLimitData)
  client_rate_limits : List (String × Int)
deriving DecidableEq

/-- The empty initial state at process start. -/
def GatewayState.initial : GatewayState := ⟨[], [], [], []⟩

/-- The parts of an inbound HTTP request read by the gateway. -/
structure Request where
  path : String
  xClientAddress : Option String := none
  xPayment : Option String := none
  remoteAddr : String := ""
  userAgent : String := ""
deriving DecidableEq

-- === parse_x402_header (src/gateway.py lines 98-112) ===

/-- Function `parse_x402_header`: `None` on a falsy header, else split on `","`,
and for each segment containing `"="`, strip it, split on the first `"="`
and record the stripped key/value pair; segments without `"="` are
skipped.  The `try/except` of the source has no failing operation in its
body, so no `none` arises from it. -/
def parse_x402_header (header : String) : Option (List (String × String)) :=
  if header = "" then none
  else
    some ((pySplit ',' header).foldl
      (fun result part =>
        if pyContains '=' part then
          let kv := splitFirst '=' (pyStrip part)
          upsert (pyStrip kv.1) (pyStrip kv.2) result
        else result)
      [])

-- === check_rate_limit (src/gateway.py lines 129-146) ===

/-- Resolution `CLIENT_RATE_LIMITS.get(client_address, {}).get("limit", DEFAULT_RATE_LIMIT)`. -/
def resolveLimit (st : GatewayState) (client_address : String) : Int :=
  (dictGet client_address st.client_rate_limits).getD DEFAULT_RATE_LIMIT

/-- Function `check_rate_limit(client_address)` at time `now`.  The defaultdict
yields `{"requests": 0, "reset_at": 0}` for an unseen client; the window
is reset when `now > reset_at` (strict); if `requests >= limit` the call
returns `False` without incrementing, else it increments and returns
`True`.  The (possibly reset) window is written back in both cases. -/
def check_rate_limit (now : ℚ) (client_address : String) (st : GatewayState) :
    Bool × GatewayState :=
  let client_limit := resolveLimit st client_address
  let limit_data := (dictGet client_address st.rate_limits).getD ⟨0, 0⟩
  let limit_data :=
    if limit_data.reset_at < now then (⟨0, now + 60⟩ : RateLimitData) else limit_data
  if (limit_data.requests : Int) ≥ client_limit then
    (false, { st with rate_limits := upsert client_address limit_data st.rate_limits })
  else
    let bumped : RateLimitData := ⟨limit_data.requests + 1, limit_data.reset_at⟩
    (true, { st with rate_limits := upsert client_address bumped st.rate_limits })

-- === get_endpoint_price (src/gateway.py lines 149-151) ===

/-- Function `get_endpoint_price`: the price table with fallback to the default. -/
def get_endpoint_price (endpoint : String) : ℚ :=
  (dictGet endpoint ENDPOINT_PRICING).getD PRICE_PER_REQUEST

-- === require_payment (src/gateway.py lines 156-214) ===

/-- The payment context stored in `g.payment` on admission. -/
structure PaymentCtx where
  client_address : String
  max_amount : ℚ
  amount_charged : ℚ
deriving DecidableEq

/-- The observable outcome of a priced route: an error response (status
plus the machine-readable `code` and `retry_after` fields when the body
carries them), an uncaught exception (Flask returns HTTP 500), or an
admitted request (the handler body ran with the given payment context). -/
inductive Outcome where
  | reject (status : ℕ) (code : Option String) (retryAfter : Option ℕ)
  | exn
  | admitted (request_id : String) (ctx : PaymentCtx)
deriving DecidableEq

/-- Whether the pipeline admitted the request. -/
def Outcome.isAdmitted : Outcome → Bool
  | .admitted _ _ => true
  | _ => false

/-- Line 161: the identity the rate limiter is keyed by —
`request.headers.get('X-Client-Address', request.remote_addr)`. -/
def rateLimiterKey (req : Request) : String :=
  req.xClientAddress.getD req.remoteAddr

/-- Line 207: the identity stored in `g.payment["client_address"]` and
used for the ledger entry and client profile —
`request.headers.get('X-Client-Address', '')`. -/
def profileKey (req : Request) : String :=
  req.xClientAddress.getD ""

/-- Line 192: `float(payment.get('max_amount', 0))`; `none` is the
uncaught `ValueError`. -/
def getMaxAmount (payment : List (String × String)) : Option ℚ :=
  match dictGet "max_amount" payment with
  | none => some 0
  | some s => pyFloat s

/-- Line 193: `payment.get('token', '').upper()`. -/
def getToken (payment : List (String × String)) : String :=
  ((dictGet "token" payment).getD "").toUpper

/-- The `require_payment` decorator body up to the point where the wrapped
handler runs: either an error `Outcome` or the `PaymentCtx` placed in
`g.payment`, together with the state as mutated by the rate-limit check
(the only state the decorator touches). -/
def require_payment (now : ℚ) (req : Request) (st : GatewayState) :
    Except Outcome PaymentCtx × GatewayState :=
  let r := check_rate_limit now (rateLimiterKey req) st
  let st1 := r.2
  if r.1 = false then
    (.error (.reject 429 (some "RATE_LIMIT_EXCEEDED") (some 60)), st1)
  else
    let payment_header := req.xPayment.getD ""
    if payment_header = "" then
      (.error (.reject 402 (some "PAYMENT_REQUIRED") none), st1)
    else
      match parse_x402_header payment_header with
      | none => (.error (.reject 400 none none), st1)
      | some payment =>
        if payment = [] then (.error (.reject 400 none none), st1)
        else
          match getMaxAmount payment with
          | none => (.error .exn, st1)
          | some max_amount =>
            if getToken payment ≠ "USDC" then
              (.error (.reject 400 none none), st1)
            else
              let price := get_endpoint_price req.path
              if max_amount < price then
                (.error (.reject 402 (some "INSUFFICIENT_PAYMENT") none), st1)
              else
                (.ok ⟨profileKey req, max_amount, price⟩, st1)

-- === Paid route handlers (src/gateway.py lines 258-444) ===

/-- Creation and storage of the `PaidRequest` record shared by every
handler body: `status="completed"`, `created_at` and `completed_at` both
`datetime.now()`. -/
def write_entry (rid : String) (now : ℚ) (ctx : PaymentCtx) (endpoint ip ua : String)
    (st : GatewayState) : GatewayState :=
  let entry : PaidRequest :=
    { id := rid
      client_address := ctx.client_address
      endpoint := endpoint
      max_amount := ctx.max_amount
      amount_paid := ctx.amount_charged
      status := "completed"
      created_at := now
      completed_at := some now
      ip_address := ip
      user_agent := ua }
  { st with requests_db := upsert rid entry st.requests_db }

/-- Lines 282-286 of `make_paid_request`: create the `Client` profile if
absent, then add `amount_charged` to `total_spent` and increment
`total_requests`. -/
def update_client (addr : String) (amount : ℚ) (now : ℚ) (st : GatewayState) :
    GatewayState :=
  let db :=
    if (dictGet addr st.api_keys_db).isSome then st.api_keys_db
    else upsert addr { address := addr, created_at := now } st.api_keys_db
  match dictGet addr db with
  | some c =>
    let c' : Client :=
      { c with total_spent := c.total_spent + amount,
               total_requests := c.total_requests + 1 }
    { st with api_keys_db := upsert addr c' db }
  | none => { st with api_keys_db := db }

/-- The six priced routes wrapped in `require_payment`. -/
inductive Route where
  | request | predict | analyze | search | embed | complete
deriving DecidableEq

/-- The hard-coded `endpoint` string each specialized handler stores. -/
def Route.endpoint : Route → String
  | .predict => "/api/v1/predict"
  | .analyze => "/api/v1/analyze"
  | .search => "/api/v1/search"
  | .embed => "/api/v1/embed"
  | .complete => "/api/v1/complete"
  | .request => ""

/-- A priced route end to end: the `require_payment` decorator, then the
handler body.  `make_paid_request` (route `.request`) stores
`request.path`, the remote address and user agent in the entry and updates
the client profile; the five specialized handlers (`predict`, `analyze`,
`search`, `embed`, `complete`) store their hard-coded endpoint string,
leave `ip_address`/`user_agent` at their defaults, and do not touch the
client profiles. -/
def handleRoute (r : Route) (now : ℚ) (rid : String) (req : Request)
    (st : GatewayState) : Outcome × GatewayState :=
  match require_payment now req st with
  | (.error o, st1) => (o, st1)
  | (.ok ctx, st1) =>
    match r with
    | .request =>
      let st2 := write_entry rid now ctx req.path req.remoteAddr req.userAgent st1
      (.admitted rid ctx, update_client ctx.client_address ctx.amount_charged now st2)
    | r => (.admitted rid ctx, write_entry rid now ctx r.endpoint "" "" st1)

-- === set_rate_limit (src/gateway.py lines 511-527) ===

/-- Route `POST /api/v1/rate-limit`: 400 when `client_address` is falsy, else
store the override and return 200. -/
def set_rate_limit (client_address : Option String) (limit : Int)
    (st : GatewayState) : ℕ × GatewayState :=
  if client_address.getD "" = "" then (400, st)
  else (200, { st with client_rate_limits :=
                 upsert (client_address.getD "") limit st.client_rate_limits })

-- === list_clients (src/gateway.py lines 471-490) ===

/-- Stable insertion of a client into a list already sorted by
`total_spent` descending: the new client goes after every earlier client
whose spend is at least as large. -/
def insertDesc (c : Client) : List Client → List Client
  | [] => [c]
  | y :: ys => if y.total_spent < c.total_spent then c :: y :: ys else y :: insertDesc c ys

/-- Python `sorted(..., key=lambda c: c.total_spent, reverse=True)`: CPython's
sort is stable and `reverse=True` preserves the order of equal keys, which
this left-to-right stable insertion sort reproduces. -/
def sortBySpentDesc (l : List Client) : List Client :=
  l.foldl (fun acc c => insertDesc c acc) []

/-- Route `GET /api/v1/clients`: the profile values in insertion order, sorted
by `total_spent` descending (stable), truncated to 20. -/
def list_clients (st : GatewayState) : List Client :=
  (sortBySpentDesc (st.api_keys_db.map Prod.snd)).take 20

instance : DecidableEq (Except Outcome PaymentCtx) := fun a b =>
  match a, b with
  | .error x, .error y =>
    if h : x = y then isTrue (h ▸ rfl) else isFalse fun hc => h (Except.error.inj hc)
  | .ok x, .ok y =>
    if h : x = y then isTrue (h ▸ rfl) else isFalse fun hc => h (Except.ok.inj hc)
  | .error _, .ok _ => isFalse fun hc => Except.noConfusion hc
  | .ok _, .error _ => isFalse fun hc => Except.noConfusion hc

/-- Write back one client's window: the state shape every branch of
`check_rate_limit` produces. -/
def setWindow (st : GatewayState) (addr : String) (w : RateLimitData) : GatewayState :=
  { st with rate_limits := upsert addr w st.rate_limits }

/-- Repeated `check_rate_limit` calls by one client at the given times:
the list of results and the final state. -/
def runCalls (addr : String) : List ℚ → GatewayState → List Bool × GatewayState
  | [], st => ([], st)
  | t :: ts, st =>
    let r := check_rate_limit t addr st
    let rest := runCalls addr ts r.2
    (r.1 :: rest.1, rest.2)

/-- The order `list_clients` is claimed to produce: spend strictly larger,
or equal spend and created no later. -/
def clientOrder (a b : Client) : Prop :=
  b.total_spent < a.total_spent ∨
    (a.total_spent = b.total_spent ∧ a.created_at ≤ b.created_at)

instance (a b : Client) : Decidable (clientOrder a b) :=
  inferInstanceAs (Decidable (b.total_spent < a.total_spent ∨
    (a.total_spent = b.total_spent ∧ a.created_at ≤ b.created_at)))


-- === Concrete fixtures used by claim-level evaluations ===

/-- A well-formed paid request to `/api/v1/predict` from client `0xA`. -/
def predictReq : Request :=
  { path := "/api/v1/predict", xClientAddress := some "0xA",
    xPayment := some "max_amount=100, token=USDC", remoteAddr := "1.2.3.4" }

/-- The same request with malformed numeric text in `max_amount`. -/
def predictReqBadAmount : Request :=
  { predictReq with xPayment := some "max_amount=abc, token=USDC" }

/-- State after one admitted `/api/v1/predict` request from `0xA`. -/
def afterPredict1 : GatewayState :=
  (handleRoute .predict 1 "req_1" predictReq GatewayState.initial).2

/-- State after a second admitted `/api/v1/predict` request from `0xA`. -/
def afterPredict2 : GatewayState :=
  (handleRoute .predict 2 "req_2" predictReq afterPredict1).2

/-- The predict request offering exactly the endpoint price. -/
def predictReqExact : Request :=
  { predictReq with xPayment := some "max_amount=0.01, token=USDC" }

/-- A request to the generic paid route carrying no `X-Client-Address`
header, arriving from remote address `10.0.0.1`. -/
def anonReq : Request :=
  { path := "/api/v1/request", xClientAddress := none,
    xPayment := some "max_amount=100, token=USDC", remoteAddr := "10.0.0.1" }

/-!
Theorems.

General lemmas about the embedded operations, followed by one theorem
(plus witness / counterexample where applicable) per specification claim.
-/

@[simp]
theorem dictGet_upsert (k j : String) (v : α) (l : List (String × α)) :
    dictGet j (upsert k v l) = if j = k then some v else dictGet j l := by
  induction l with
  | nil =>
    simp only [upsert, dictGet]
    by_cases h : j = k
    · subst h; simp
    · rw [if_neg fun h' => h h'.symm, if_neg h]
  | cons p t ih =>
    obtain ⟨k', v'⟩ := p
    simp only [upsert]
    by_cases hk : k' = k
    · subst hk
      simp only [if_pos rfl, dictGet]
      by_cases hj : k' = j
      · subst hj; simp
      · rw [if_neg hj, if_neg fun h' => hj h'.symm, if_neg hj]
    · simp only [if_neg hk, dictGet, ih]
      by_cases hj : k' = j
      · subst hj
        rw [if_pos rfl, if_neg fun h' : k' = k => hk h', if_pos rfl]
      · rw [if_neg hj]
        by_cases hjk : j = k
        · rw [if_pos hjk, if_pos hjk]
        · rw [if_neg hjk, if_neg hjk, if_neg hj]


-- === State-preservation lemmas ===

theorem check_rate_limit_requests_db (now : ℚ) (addr : String) (st : GatewayState) :
    (check_rate_limit now addr st).2.requests_db = st.requests_db := by
  simp only [check_rate_limit]
  split <;> split <;> rfl

theorem check_rate_limit_api_keys_db (now : ℚ) (addr : String) (st : GatewayState) :
    (check_rate_limit now addr st).2.api_keys_db = st.api_keys_db := by
  simp only [check_rate_limit]
  split <;> split <;> rfl

theorem check_rate_limit_client_rate_limits (now : ℚ) (addr : String) (st : GatewayState) :
    (check_rate_limit now addr st).2.client_rate_limits = st.client_rate_limits := by
  simp only [check_rate_limit]
  split <;> split <;> rfl

theorem resolveLimit_check_rate_limit (now : ℚ) (a b : String) (st : GatewayState) :
    resolveLimit (check_rate_limit now a st).2 b = resolveLimit st b := by
  unfold resolveLimit
  rw [check_rate_limit_client_rate_limits]

/-- Every branch of `require_payment` returns the state produced by the
rate-limit check; the decorator mutates nothing else. -/
theorem require_payment_snd (now : ℚ) (req : Request) (st : GatewayState) :
    (require_payment now req st).2 = (check_rate_limit now (rateLimiterKey req) st).2 := by
  simp only [require_payment]
  split
  · rfl
  · split
    · rfl
    · split
      · rfl
      · split
        · rfl
        · split
          · rfl
          · split
            · rfl
            · split <;> rfl

theorem require_payment_requests_db (now : ℚ) (req : Request) (st : GatewayState) :
    (require_payment now req st).2.requests_db = st.requests_db := by
  rw [require_payment_snd, check_rate_limit_requests_db]

-- === Rate limiter step lemmas ===


/-- A call inside the current window (`t ≤ reset_at`): no reset happens;
the call succeeds exactly when `count < limit`, incrementing on success. -/
theorem check_in_window (st : GatewayState) (addr : String) (t : ℚ) (c : ℕ) (R : ℚ)
    (h : (dictGet addr st.rate_limits).getD ⟨0, 0⟩ = ⟨c, R⟩) (ht : t ≤ R) :
    check_rate_limit t addr st =
      (decide ((c : Int) < resolveLimit st addr),
       setWindow st addr ⟨if (c : Int) < resolveLimit st addr then c + 1 else c, R⟩) := by
  simp only [check_rate_limit, setWindow]
  rw [h]
  rw [if_neg (not_lt.mpr ht)]
  by_cases hc : (c : Int) < resolveLimit st addr
  · rw [if_neg (not_le.mpr hc), if_pos hc]
    simp [hc]
  · rw [if_pos (not_lt.mp hc), if_neg hc]
    simp [hc]

/-- A call after the window expired (`reset_at < t`): the window is reset
to `⟨0, t + 60⟩` first, so the call succeeds exactly when the limit is
positive, leaving count `1` (or `0` for a non-positive limit). -/
theorem check_expired (st : GatewayState) (addr : String) (t : ℚ) (c : ℕ) (R : ℚ)
    (h : (dictGet addr st.rate_limits).getD ⟨0, 0⟩ = ⟨c, R⟩) (ht : R < t) :
    check_rate_limit t addr st =
      (decide (0 < resolveLimit st addr),
       setWindow st addr ⟨if 0 < resolveLimit st addr then 1 else 0, t + 60⟩) := by
  simp only [check_rate_limit, setWindow]
  rw [h]
  rw [if_pos ht]
  by_cases hc : (0 : Int) < resolveLimit st addr
  · rw [if_neg (by simpa using not_le.mpr hc), if_pos hc]
    simp [hc]
  · rw [if_pos (by simpa using not_lt.mp hc), if_neg hc]
    simp [hc]

theorem resolveLimit_setWindow (st : GatewayState) (addr b : String) (w : RateLimitData) :
    resolveLimit (setWindow st addr w) b = resolveLimit st b := rfl

theorem dictGet_setWindow (st : GatewayState) (addr : String) (w : RateLimitData) :
    dictGet addr (setWindow st addr w).rate_limits = some w := by
  simp [setWindow]


/-- Calls all landing inside the current window, starting from count `c`:
the `i`-th call succeeds exactly when `c + i < limit`, and the window's
`reset_at` never moves. -/
theorem runCalls_in_window (addr : String) (L : Int) (R : ℚ) :
    ∀ (ts : List ℚ) (st : GatewayState) (c : ℕ),
      resolveLimit st addr = L →
      (dictGet addr st.rate_limits).getD ⟨0, 0⟩ = ⟨c, R⟩ →
      (∀ t ∈ ts, t ≤ R) →
      (runCalls addr ts st).1.length = ts.length
      ∧ (∀ i, i < ts.length →
          (runCalls addr ts st).1[i]? = some (decide ((c + i : Int) < L)))
      ∧ resolveLimit (runCalls addr ts st).2 addr = L
      ∧ ∃ c' : ℕ,
          (dictGet addr (runCalls addr ts st).2.rate_limits).getD ⟨0, 0⟩ = ⟨c', R⟩ := by
  intro ts
  induction ts with
  | nil =>
    intro st c hL hw _
    exact ⟨rfl, fun i hi => absurd hi (Nat.not_lt_zero i), hL, c, hw⟩
  | cons t ts ih =>
    intro st c hL hw hts
    have hstep := check_in_window st addr t c R hw (hts t (List.mem_cons_self t ts))
    rw [hL] at hstep
    set c' : ℕ := if (c : Int) < L then c + 1 else c with hc'
    have hst' : check_rate_limit t addr st = (decide ((c : Int) < L), setWindow st addr ⟨c', R⟩) := hstep
    have hL' : resolveLimit (setWindow st addr ⟨c', R⟩) addr = L := by
      rw [resolveLimit_setWindow]; exact hL
    have hw' : (dictGet addr (setWindow st addr ⟨c', R⟩).rate_limits).getD ⟨0, 0⟩ = ⟨c', R⟩ := by
      rw [dictGet_setWindow]; rfl
    obtain ⟨ihlen, ihget, ihres, ihwin⟩ :=
      ih (setWindow st addr ⟨c', R⟩) c' hL' hw' (fun t' ht' => hts t' (List.mem_cons_of_mem t ht'))
    refine ⟨?_, ?_, ?_, ?_⟩
    · simp [runCalls, hst', ihlen]
    · intro i hi
      match i with
      | 0 =>
        simp [runCalls, hst']
      | Nat.succ j =>
        have hj : j < ts.length := Nat.lt_of_succ_lt_succ hi
        have := ihget j hj
        simp only [runCalls, hst', List.getElem?_cons_succ]
        rw [this]
        congr 1
        rw [decide_eq_decide]
        by_cases hlt : (c : Int) < L
        · simp only [hc', if_pos hlt]
          push_cast
          omega
        · simp only [hc', if_neg hlt]
          push_cast
          omega
    · simpa [runCalls, hst'] using ihres
    · simpa [runCalls, hst'] using ihwin

-- === Ordering of the client listing ===


theorem clientOrder_spent {a b : Client} (h : clientOrder a b) :
    b.total_spent ≤ a.total_spent := by
  rcases h with h | ⟨h, _⟩
  · exact le_of_lt h
  · exact le_of_eq h.symm

theorem mem_insertDesc {c z : Client} :
    ∀ {l : List Client}, z ∈ insertDesc c l → z = c ∨ z ∈ l := by
  intro l
  induction l with
  | nil =>
    intro h
    simp only [insertDesc, List.mem_singleton] at h
    exact Or.inl h
  | cons y ys ih =>
    intro h
    simp only [insertDesc] at h
    split at h
    · rcases List.mem_cons.mp h with h | h
      · exact Or.inl h
      · exact Or.inr h
    · rcases List.mem_cons.mp h with h | h
      · exact Or.inr (h ▸ List.mem_cons_self y ys)
      · rcases ih h with h | h
        · exact Or.inl h
        · exact Or.inr (List.mem_cons_of_mem y h)

theorem insertDesc_pairwise {c : Client} :
    ∀ {l : List Client}, l.Pairwise clientOrder →
      (∀ y ∈ l, y.created_at ≤ c.created_at) →
      (insertDesc c l).Pairwise clientOrder := by
  intro l
  induction l with
  | nil =>
    intro _ _
    simp [insertDesc]
  | cons y ys ih =>
    intro hp hcr
    obtain ⟨hy, hys⟩ := List.pairwise_cons.mp hp
    simp only [insertDesc]
    split
    · rename_i hspent
      refine List.pairwise_cons.mpr ⟨?_, hp⟩
      intro z hz
      rcases List.mem_cons.mp hz with rfl | hz
      · exact Or.inl hspent
      · exact Or.inl (lt_of_le_of_lt (clientOrder_spent (hy z hz)) hspent)
    · rename_i hspent
      refine List.pairwise_cons.mpr ⟨?_, ?_⟩
      · intro z hz
        rcases mem_insertDesc hz with rfl | hz
        · rcases lt_or_eq_of_le (not_lt.mp hspent) with hlt | heq
          · exact Or.inl hlt
          · exact Or.inr ⟨heq.symm, hcr y (List.mem_cons_self y ys)⟩
        · exact hy z hz
      · exact ih hys fun z hz => hcr z (List.mem_cons_of_mem y hz)

theorem sortBySpentDesc_pairwise_aux :
    ∀ (l acc : List Client), acc.Pairwise clientOrder →
      l.Pairwise (fun a b => a.created_at ≤ b.created_at) →
      (∀ y ∈ acc, ∀ x ∈ l, y.created_at ≤ x.created_at) →
      (l.foldl (fun a c => insertDesc c a) acc).Pairwise clientOrder := by
  intro l
  induction l with
  | nil =>
    intro acc hacc _ _
    exact hacc
  | cons x xs ih =>
    intro acc hacc hl hcross
    obtain ⟨hx, hxs⟩ := List.pairwise_cons.mp hl
    simp only [List.foldl_cons]
    refine ih (insertDesc x acc) ?_ hxs ?_
    · exact insertDesc_pairwise hacc fun y hy => hcross y hy x (List.mem_cons_self x xs)
    · intro y hy x' hx'
      rcases mem_insertDesc hy with rfl | hy
      · exact hx x' hx'
      · exact hcross y hy x' (List.mem_cons_of_mem x hx')

/-- If the stored profiles are in creation order (as they are: each is
appended with the current time on first admission), the sorted-descending
listing is pairwise ordered by `clientOrder`. -/
theorem sortBySpentDesc_pairwise (l : List Client)
    (h : l.Pairwise fun a b => a.created_at ≤ b.created_at) :
    (sortBySpentDesc l).Pairwise clientOrder := by
  exact sortBySpentDesc_pairwise_aux l [] List.Pairwise.nil h (by intro y hy; cases hy)

-- === Claim C1 ===

/-- C1: the spec claims that malformed numeric text in `max_amount` (e.g.
the header `"max_amount=abc, token=USDC"`) makes the parse fail as a whole
and return absent, so the pipeline rejects with 400.  In the code the
parse SUCCEEDS (the `try/except` of `parse_x402_header` guards only the
splitting, which cannot fail), and `float(payment.get('max_amount', 0))`
at line 192 of `require_payment` then raises an uncaught `ValueError`
(HTTP 500), with no 400 response and no ledger write. -/
theorem C1_malformed_amount_uncaught_exception :
    parse_x402_header "max_amount=abc, token=USDC"
        = some [("max_amount", "abc"), ("token", "USDC")]
    ∧ getMaxAmount [("max_amount", "abc"), ("token", "USDC")] = none
    ∧ (handleRoute .predict 1 "req_1" predictReqBadAmount GatewayState.initial).1 = .exn
    ∧ (handleRoute .predict 1 "req_1" predictReqBadAmount
        GatewayState.initial).2.requests_db = [] := by
  with_unfolding_all decide

-- === Claim C2 ===

/-- C2: the spec claims every admitted request on a priced endpoint
updates the `ClientProfile`.  The endpoint-specific handlers do not: two
admitted `/api/v1/predict` requests from client `0xA` write two ledger
entries but leave `api_keys_db` empty — no profile is ever created, so
`totalRequests`/`totalSpent` are not accumulated (only the generic
`/api/v1/request` handler, `make_paid_request`, performs lines 282-286). -/
theorem C2_predict_skips_profile_update :
    (handleRoute .predict 1 "req_1" predictReq GatewayState.initial).1.isAdmitted = true
    ∧ (handleRoute .predict 2 "req_2" predictReq afterPredict1).1.isAdmitted = true
    ∧ (dictGet "req_1" afterPredict2.requests_db).isSome = true
    ∧ (dictGet "req_2" afterPredict2.requests_db).isSome = true
    ∧ afterPredict2.api_keys_db = [] := by
  with_unfolding_all decide

-- === Claim C5 ===

/-- C5 counterexample: at the boundary instant `now = windowResetAt`
(window `⟨5, 100⟩`, call at `now = 100`) the claim says the window is
reset (count `0`, then the admitted call leaves `⟨1, 160⟩`).  The code
uses the strict test `now > reset_at`, so no reset happens: the call
increments the stale count, leaving `⟨6, 100⟩`. -/
theorem C5_counterexample :
    (check_rate_limit 100 "0xA"
        (⟨[], [], [("0xA", ⟨5, 100⟩)], []⟩ : GatewayState)).2.rate_limits
      = [("0xA", ⟨6, 100⟩)]
    ∧ ¬ (check_rate_limit 100 "0xA"
        (⟨[], [], [("0xA", ⟨5, 100⟩)], []⟩ : GatewayState)).2.rate_limits
      = [("0xA", ⟨1, 160⟩)] := by
  with_unfolding_all decide

/-- C5 as amended: the window is reset before the limit check only when
`now` is STRICTLY past `windowResetAt`; then `count` is zeroed and
`windowResetAt` becomes `now + 60`, so the call's result depends only on
whether the resolved limit is positive and the stored count becomes `1`
(or `0` for a non-positive limit). -/
theorem C5_reset_only_strictly_after (st : GatewayState) (addr : String)
    (now : ℚ) (c : ℕ) (R : ℚ)
    (hw : (dictGet addr st.rate_limits).getD ⟨0, 0⟩ = ⟨c, R⟩) (h : R < now) :
    check_rate_limit now addr st =
      (decide (0 < resolveLimit st addr),
       setWindow st addr ⟨if 0 < resolveLimit st addr then 1 else 0, now + 60⟩) :=
  check_expired st addr now c R hw h

theorem C5_reset_only_strictly_after_witness :
    (dictGet "0xA"
        (⟨[], [], [("0xA", ⟨5, 100⟩)], []⟩ : GatewayState).rate_limits).getD ⟨0, 0⟩
      = ⟨5, 100⟩
    ∧ (100 : ℚ) < 101
    ∧ check_rate_limit 101 "0xA" (⟨[], [], [("0xA", ⟨5, 100⟩)], []⟩ : GatewayState) =
        (decide (0 < resolveLimit (⟨[], [], [("0xA", ⟨5, 100⟩)], []⟩ : GatewayState) "0xA"),
         setWindow (⟨[], [], [("0xA", ⟨5, 100⟩)], []⟩ : GatewayState) "0xA"
           ⟨if 0 < resolveLimit (⟨[], [], [("0xA", ⟨5, 100⟩)], []⟩ : GatewayState) "0xA"
             then 1 else 0, 101 + 60⟩) :=
  ⟨by with_unfolding_all decide, by with_unfolding_all decide,
   C5_reset_only_strictly_after _ "0xA" 101 5 100 (by with_unfolding_all decide)
     (by with_unfolding_all decide)⟩

-- === Claim C7 ===

/-- C7 counterexample: when `X-Client-Address` is absent, the rate
limiter keys by `request.remote_addr` (line 161) while the ledger entry
and client profile key by `''` (line 207): an admitted anonymous request
from `10.0.0.1` leaves a rate window under `"10.0.0.1"` but a profile
under `""`. -/
theorem C7_counterexample :
    rateLimiterKey anonReq = "10.0.0.1"
    ∧ profileKey anonReq = ""
    ∧ rateLimiterKey anonReq ≠ profileKey anonReq
    ∧ (handleRoute .request 1 "req_1" anonReq
        GatewayState.initial).2.rate_limits.map Prod.fst = ["10.0.0.1"]
    ∧ (handleRoute .request 1 "req_1" anonReq
        GatewayState.initial).2.api_keys_db.map Prod.fst = [""] := by
  with_unfolding_all decide

/-- C7 as amended: whenever the `X-Client-Address` header is present, the
identity the rate limiter keys by coincides with the identity used for
the ledger entry and the client profile; the two differ only in the
fallback for an absent header (`remote_addr` vs `""`). -/
theorem C7_same_key_when_header_present (req : Request)
    (h : req.xClientAddress.isSome = true) :
    rateLimiterKey req = profileKey req := by
  rcases req with ⟨p, xca, xp, ra, ua⟩
  cases xca with
  | none => simp at h
  | some a => rfl

theorem C7_same_key_when_header_present_witness :
    (predictReq.xClientAddress.isSome = true)
    ∧ rateLimiterKey predictReq = profileKey predictReq :=
  ⟨rfl, C7_same_key_when_header_present predictReq rfl⟩

-- === Claim C8 ===

/-- C8: parser leniency.  `"max_amount=100, token=USDC"` parses to the
dict `{max_amount: "100", token: "USDC"}`, extracted as amount `100` and
token `"USDC"`; a `bogus` segment without `=` is ignored, giving the same
dict; `"garbage"` parses to the empty dict and `""` to `None`, both falsy,
so the pipeline treats them as "no claim" (400, not a zero-value claim). -/
theorem C8_parser_leniency :
    parse_x402_header "max_amount=100, token=USDC"
        = some [("max_amount", "100"), ("token", "USDC")]
    ∧ getMaxAmount [("max_amount", "100"), ("token", "USDC")] = some 100
    ∧ getToken [("max_amount", "100"), ("token", "USDC")] = "USDC"
    ∧ parse_x402_header "max_amount=100, bogus, token=USDC"
        = parse_x402_header "max_amount=100, token=USDC"
    ∧ parse_x402_header "garbage" = some []
    ∧ parse_x402_header "" = none
    ∧ (require_payment 1 { predictReq with xPayment := some "garbage" }
        GatewayState.initial).1 = .error (.reject 400 none none) := by
  with_unfolding_all decide

-- === Claim C4 ===

/-- C4: for a request whose USDC claim survives the earlier pipeline
steps, `maxAmount` exactly equal to the endpoint's price is admitted
(charged the price), while `maxAmount` strictly below the price is
rejected with 402 `INSUFFICIENT_PAYMENT`. -/
theorem C4_admission_boundary (now : ℚ) (req : Request) (st : GatewayState)
    (h s : String) (d : List (String × String)) (m : ℚ)
    (hrl : (check_rate_limit now (rateLimiterKey req) st).1 = true)
    (hh : req.xPayment = some h)
    (hd : parse_x402_header h = some d) (hdne : d ≠ [])
    (hma : dictGet "max_amount" d = some s) (hm : pyFloat s = some m)
    (ht : getToken d = "USDC") :
    (m = get_endpoint_price req.path →
      (require_payment now req st).1
        = .ok ⟨profileKey req, m, get_endpoint_price req.path⟩)
    ∧ (m < get_endpoint_price req.path →
      (require_payment now req st).1
        = .error (.reject 402 (some "INSUFFICIENT_PAYMENT") none)) := by
  have hne : h ≠ "" := by
    intro e
    rw [e] at hd
    simp [parse_x402_header] at hd
  have hm' : getMaxAmount d = some m := by
    simp only [getMaxAmount, hma]
    exact hm
  constructor
  · intro heq
    have hnlt : ¬ m < get_endpoint_price req.path := by
      rw [heq]
      exact lt_irrefl _
    simp only [require_payment, hrl, hh, Option.getD_some, if_neg hne, hd, hm', ht,
      if_neg hdne, if_neg hnlt]
    simp
  · intro hlt
    simp only [require_payment, hrl, hh, Option.getD_some, if_neg hne, hd, hm', ht,
      if_neg hdne, if_pos hlt]
    simp

theorem C4_admission_boundary_witness :
    pyFloat "0.01" = some (get_endpoint_price predictReqExact.path)
    ∧ (require_payment 1 predictReqExact GatewayState.initial).1
        = .ok ⟨profileKey predictReqExact, 1 / 100, get_endpoint_price predictReqExact.path⟩ :=
  ⟨by with_unfolding_all decide,
   (C4_admission_boundary 1 predictReqExact GatewayState.initial
      "max_amount=0.01, token=USDC" "0.01"
      [("max_amount", "0.01"), ("token", "USDC")] (1 / 100)
      (by with_unfolding_all decide) rfl (by with_unfolding_all decide)
      (by decide) (by with_unfolding_all decide) (by with_unfolding_all decide)
      (by with_unfolding_all decide)).1
     (by with_unfolding_all decide)⟩

-- === Claim C6 ===

/-- A failed rate-limit check short-circuits `require_payment` into the
429 response, before any payment processing. -/
theorem require_payment_rate_limited (now : ℚ) (req : Request) (st : GatewayState)
    (hrl : (check_rate_limit now (rateLimiterKey req) st).1 = false) :
    require_payment now req st =
      (.error (.reject 429 (some "RATE_LIMIT_EXCEEDED") (some 60)),
       (check_rate_limit now (rateLimiterKey req) st).2) := by
  simp only [require_payment, hrl]
  simp

/-- C6: a rate-limited client gets 429 `RATE_LIMIT_EXCEEDED` with
`retry_after = 60` regardless of the payment header (the rate-limit check
runs before every payment check), and no rejected request of any kind
writes a ledger entry. -/
theorem C6_rate_limit_first_no_ledger_write (r : Route) (now : ℚ) (rid : String)
    (req : Request) (st : GatewayState) :
    ((check_rate_limit now (rateLimiterKey req) st).1 = false →
      handleRoute r now rid req st =
        (.reject 429 (some "RATE_LIMIT_EXCEEDED") (some 60),
         (check_rate_limit now (rateLimiterKey req) st).2))
    ∧ ((handleRoute r now rid req st).1.isAdmitted = false →
      (handleRoute r now rid req st).2.requests_db = st.requests_db) := by
  constructor
  · intro hrl
    simp only [handleRoute, require_payment_rate_limited now req st hrl]
  · intro hnadm
    rcases hrp : require_payment now req st with ⟨res, st1⟩
    have hdb : st1.requests_db = st.requests_db := by
      have hx := require_payment_requests_db now req st
      rw [hrp] at hx
      exact hx
    cases res with
    | error o =>
      simpa only [handleRoute, hrp] using hdb
    | ok ctx =>
      exfalso
      simp only [handleRoute, hrp] at hnadm
      cases r <;> simp [Outcome.isAdmitted] at hnadm

theorem C6_rate_limit_first_no_ledger_write_witness :
    (check_rate_limit 50 (rateLimiterKey predictReq)
        (⟨[], [], [("0xA", ⟨60, 100⟩)], []⟩ : GatewayState)).1 = false
    ∧ handleRoute .predict 50 "req_1" predictReq
        (⟨[], [], [("0xA", ⟨60, 100⟩)], []⟩ : GatewayState) =
      (.reject 429 (some "RATE_LIMIT_EXCEEDED") (some 60),
       (check_rate_limit 50 (rateLimiterKey predictReq)
         (⟨[], [], [("0xA", ⟨60, 100⟩)], []⟩ : GatewayState)).2) :=
  ⟨by with_unfolding_all decide,
   (C6_rate_limit_first_no_ledger_write .predict 50 "req_1" predictReq
      (⟨[], [], [("0xA", ⟨60, 100⟩)], []⟩ : GatewayState)).1
     (by with_unfolding_all decide)⟩

-- === Claim C10 ===

theorem update_client_requests_db (addr : String) (amount now : ℚ) (st : GatewayState) :
    (update_client addr amount now st).requests_db = st.requests_db := by
  simp only [update_client]
  split <;> rfl

/-- C10: for a fresh request id, every priced route leaves all existing
ledger entries untouched, and any entry present afterwards is either an
old one or the newly created one, which has `status = "completed"` (never
`"pending"`) and a non-null `completed_at` equal to the creation time;
the rate-limit override route never touches the ledger at all. -/
theorem C10_ledger_completed_immutable (r : Route) (now : ℚ) (rid : String)
    (req : Request) (st : GatewayState)
    (hfresh : dictGet rid st.requests_db = none) :
    (∀ id, id ≠ rid →
      dictGet id (handleRoute r now rid req st).2.requests_db = dictGet id st.requests_db)
    ∧ (∀ id e, dictGet id st.requests_db = some e →
      dictGet id (handleRoute r now rid req st).2.requests_db = some e)
    ∧ (∀ id e, dictGet id (handleRoute r now rid req st).2.requests_db = some e →
      dictGet id st.requests_db = some e ∨
        (e.status = "completed" ∧ e.completed_at = some now ∧ e.status ≠ "pending"))
    ∧ (∀ a lim, (set_rate_limit a lim st).2.requests_db = st.requests_db) := by
  have hmain : (handleRoute r now rid req st).2.requests_db = st.requests_db ∨
      ∃ e₀ : PaidRequest, e₀.status = "completed" ∧ e₀.completed_at = some now ∧
        (handleRoute r now rid req st).2.requests_db = upsert rid e₀ st.requests_db := by
    rcases hrp : require_payment now req st with ⟨res, st1⟩
    have hdb : st1.requests_db = st.requests_db := by
      have hx := require_payment_requests_db now req st
      rw [hrp] at hx
      exact hx
    cases res with
    | error o =>
      left
      simpa only [handleRoute, hrp] using hdb
    | ok ctx =>
      right
      cases r with
      | request =>
        refine ⟨⟨rid, ctx.client_address, req.path, ctx.max_amount, ctx.amount_charged,
          "completed", now, some now, none, req.remoteAddr, req.userAgent⟩, rfl, rfl, ?_⟩
        simp only [handleRoute, hrp, update_client_requests_db, write_entry, hdb]
      | predict =>
        refine ⟨⟨rid, ctx.client_address, Route.predict.endpoint, ctx.max_amount,
          ctx.amount_charged, "completed", now, some now, none, "", ""⟩, rfl, rfl, ?_⟩
        simp only [handleRoute, hrp, write_entry, hdb]
      | analyze =>
        refine ⟨⟨rid, ctx.client_address, Route.analyze.endpoint, ctx.max_amount,
          ctx.amount_charged, "completed", now, some now, none, "", ""⟩, rfl, rfl, ?_⟩
        simp only [handleRoute, hrp, write_entry, hdb]
      | search =>
        refine ⟨⟨rid, ctx.client_address, Route.search.endpoint, ctx.max_amount,
          ctx.amount_charged, "completed", now, some now, none, "", ""⟩, rfl, rfl, ?_⟩
        simp only [handleRoute, hrp, write_entry, hdb]
      | embed =>
        refine ⟨⟨rid, ctx.client_address, Route.embed.endpoint, ctx.max_amount,
          ctx.amount_charged, "completed", now, some now, none, "", ""⟩, rfl, rfl, ?_⟩
        simp only [handleRoute, hrp, write_entry, hdb]
      | complete =>
        refine ⟨⟨rid, ctx.client_address, Route.complete.endpoint, ctx.max_amount,
          ctx.amount_charged, "completed", now, some now, none, "", ""⟩, rfl, rfl, ?_⟩
        simp only [handleRoute, hrp, write_entry, hdb]
  refine ⟨?_, ?_, ?_, ?_⟩
  · intro id hid
    rcases hmain with hsame | ⟨e₀, _, _, hup⟩
    · rw [hsame]
    · rw [hup, dictGet_upsert, if_neg hid]
  · intro id e he
    have hid : id ≠ rid := by
      intro hh
      rw [hh, hfresh] at he
      exact Option.noConfusion he
    rcases hmain with hsame | ⟨e₀, _, _, hup⟩
    · rw [hsame]
      exact he
    · rw [hup, dictGet_upsert, if_neg hid]
      exact he
  · intro id e he
    rcases hmain with hsame | ⟨e₀, hs, hc, hup⟩
    · left
      rw [hsame] at he
      exact he
    · rw [hup, dictGet_upsert] at he
      by_cases hid : id = rid
      · rw [if_pos hid] at he
        right
        obtain rfl : e₀ = e := Option.some.inj he
        refine ⟨hs, hc, ?_⟩
        rw [hs]
        decide
      · rw [if_neg hid] at he
        left
        exact he
  · intro a lim
    simp only [set_rate_limit]
    split <;> rfl

theorem C10_ledger_completed_immutable_witness :
    dictGet "req_1" GatewayState.initial.requests_db = none
    ∧ (∀ id, id ≠ "req_1" →
        dictGet id (handleRoute .predict 1 "req_1" predictReq
            GatewayState.initial).2.requests_db
          = dictGet id GatewayState.initial.requests_db) :=
  ⟨rfl,
   (C10_ledger_completed_immutable .predict 1 "req_1" predictReq
      GatewayState.initial rfl).1⟩

-- === Claim C3 ===

/-- C3: with resolved limit `L`, a window starting at count `0`, and a
sequence of calls all landing inside the window (no expiry in between),
exactly the first `L` calls return `true` and every later one returns
`false`; once time moves strictly past `windowResetAt`, the next call
succeeds (for `L ≥ 1`) and resets the window to count `1`,
`reset_at = t' + 60`. -/
theorem C3_rate_window_exactly_L (st : GatewayState) (addr : String)
    (ts : List ℚ) (L : ℕ) (R t' : ℚ)
    (hres : resolveLimit st addr = (L : Int))
    (hw : (dictGet addr st.rate_limits).getD ⟨0, 0⟩ = ⟨0, R⟩)
    (hts : ∀ t ∈ ts, t ≤ R)
    (hL : 1 ≤ L) (ht' : R < t') :
    (runCalls addr ts st).1 = (List.range ts.length).map (fun i => decide (i < L))
    ∧ (check_rate_limit t' addr (runCalls addr ts st).2).1 = true
    ∧ (dictGet addr
        (check_rate_limit t' addr (runCalls addr ts st).2).2.rate_limits).getD ⟨0, 0⟩
      = ⟨1, t' + 60⟩ := by
  obtain ⟨hlen, hget, hres', c', hwin'⟩ :=
    runCalls_in_window addr (L : Int) R ts st 0 hres hw hts
  have hpos : (0 : Int) < (L : Int) := by exact_mod_cast hL
  have hlist : (runCalls addr ts st).1
      = (List.range ts.length).map (fun i => decide (i < L)) := by
    apply List.ext_getElem?
    intro i
    by_cases hi : i < ts.length
    · rw [hget i hi, List.getElem?_map, List.getElem?_range hi, Option.map_some']
      congr 1
      rw [decide_eq_decide]
      omega
    · rw [List.getElem?_eq_none, List.getElem?_eq_none]
      · rw [List.length_map, List.length_range]
        omega
      · rw [hlen]
        omega
  have hstep := check_expired (runCalls addr ts st).2 addr t' c' R hwin' ht'
  rw [hres'] at hstep
  refine ⟨hlist, ?_, ?_⟩
  · rw [hstep]
    simp [hpos]
  · rw [hstep]
    simp only [dictGet_setWindow, Option.getD_some, if_pos hpos]

theorem C3_rate_window_exactly_L_witness :
    resolveLimit (⟨[], [], [("0xA", ⟨0, 100⟩)], [("0xA", 2)]⟩ : GatewayState) "0xA" = (2 : Int)
    ∧ (dictGet "0xA"
        (⟨[], [], [("0xA", ⟨0, 100⟩)], [("0xA", 2)]⟩ : GatewayState).rate_limits).getD ⟨0, 0⟩
      = ⟨0, 100⟩
    ∧ (∀ t ∈ ([1, 2, 3] : List ℚ), t ≤ (100 : ℚ))
    ∧ (runCalls "0xA" [1, 2, 3] (⟨[], [], [("0xA", ⟨0, 100⟩)], [("0xA", 2)]⟩ : GatewayState)).1
      = (List.range 3).map (fun i => decide (i < 2))
    ∧ (check_rate_limit 101 "0xA"
        (runCalls "0xA" [1, 2, 3]
          (⟨[], [], [("0xA", ⟨0, 100⟩)], [("0xA", 2)]⟩ : GatewayState)).2).1 = true :=
  ⟨by with_unfolding_all decide, by with_unfolding_all decide,
   by with_unfolding_all decide,
   (C3_rate_window_exactly_L _ "0xA" [1, 2, 3] 2 100 101
      (by with_unfolding_all decide) (by with_unfolding_all decide)
      (by with_unfolding_all decide) (by decide) (by with_unfolding_all decide)).1,
   ((C3_rate_window_exactly_L _ "0xA" [1, 2, 3] 2 100 101
      (by with_unfolding_all decide) (by with_unfolding_all decide)
      (by with_unfolding_all decide) (by decide) (by with_unfolding_all decide)).2).1⟩

-- === Claim C9 ===

/-- C9: when the stored profiles are in creation order (which holds for
every reachable state, since a profile is appended with the then-current
time on first admission), `list_clients` is sorted by `total_spent`
descending with ties broken by earliest creation: every earlier element
either spent strictly more, or spent the same and was created no later. -/
theorem C9_top_clients_sorted (st : GatewayState)
    (h : (st.api_keys_db.map Prod.snd).Pairwise fun a b => a.created_at ≤ b.created_at) :
    (list_clients st).Pairwise clientOrder := by
  unfold list_clients
  exact List.Pairwise.sublist (List.take_sublist 20 _) (sortBySpentDesc_pairwise _ h)

theorem C9_top_clients_sorted_witness :
    ((⟨[], [("0xA", ⟨"0xA", 5, 1, 1, false, 60⟩), ("0xB", ⟨"0xB", 5, 1, 2, false, 60⟩),
        ("0xC", ⟨"0xC", 7, 1, 3, false, 60⟩)], [], []⟩ : GatewayState).api_keys_db.map
        Prod.snd).Pairwise (fun a b => a.created_at ≤ b.created_at)
    ∧ (list_clients
        (⟨[], [("0xA", ⟨"0xA", 5, 1, 1, false, 60⟩), ("0xB", ⟨"0xB", 5, 1, 2, false, 60⟩),
          ("0xC", ⟨"0xC", 7, 1, 3, false, 60⟩)], [], []⟩ : GatewayState)).Pairwise
        clientOrder :=
  ⟨by with_unfolding_all decide,
   C9_top_clients_sorted _ (by with_unfolding_all decide)⟩
